import Mathlib

/-!
Verification of the PICS (Pedestrian Intersection Control Signaling) BLE
advertisement decoder and signal tracker from `ble-pics-viewer.py`.

The decoder `process_pics` is a pure Python function over a list of payload
bytes; it is embedded here as a function `List Nat → Except PyError PicsInfo`
where `PyError` models the Python exceptions that list indexing
(`IndexError`) and `struct.unpack` (`struct.error`) can raise.  The tracker
is the stateful part of `detection_callback` (module-level globals
`latest_info`, `latest_timestamp`, `last_signal_info`, `log_history`),
embedded as explicit state passing over `TrackerState`.  Timestamps are
modelled as integers (the code only ever subtracts them and compares the
difference with a duration).
-/

deriving instance DecidableEq for Except

namespace PICS

/-- Python runtime errors that the decoder / callback can raise:
`IndexError` from `data[i]` on a too-short list, `struct.error` from
`struct.unpack('>i', b)` when `b` does not hold exactly 4 bytes, and
`KeyError` from a dict lookup of an absent key. -/
inductive PyError where
  | indexError
  | structError
  | keyError
deriving DecidableEq, Repr

/-- `data[i]` on a Python list: the element, or `IndexError` when out of range. -/
def pyGet (data : List Nat) (i : Nat) : Except PyError Nat :=
  match data.get? i with
  | some v => .ok v
  | none => .error .indexError

/-- `data[a:b]` on a Python list (for `0 ≤ a ≤ b`): never fails, returns
the elements from index `a` up to (excluding) `b`, fewer if the list is
shorter. -/
def pySlice (data : List Nat) (a b : Nat) : List Nat :=
  (data.drop a).take (b - a)

/-- One lowercase hexadecimal digit. -/
def hexCharLower (n : Nat) : Char :=
  if n < 10 then Char.ofNat (48 + n) else Char.ofNat (87 + n)

/-- The digits (base 16, most significant first) of `n`; empty for `0`.
Structural recursion on a fuel argument (`n` itself is enough fuel, as the
digit count of `n ≥ 1` never exceeds `n`), so the definition computes by
kernel reduction. -/
def hexDigitsAux : Nat → Nat → List Nat
  | 0, _ => []
  | fuel + 1, n => if n = 0 then [] else hexDigitsAux fuel (n / 16) ++ [n % 16]

/-- The digits (base 16, most significant first) of `n`; empty for `0`. -/
def hexDigits (n : Nat) : List Nat := hexDigitsAux n n

/-- Python `hex(n)[2:]`: lowercase hex digits of `n`, `"0"` for `0`. -/
def pyHexStr (n : Nat) : List Char :=
  if n = 0 then ['0'] else (hexDigits n).map hexCharLower

/-- Python `s.zfill(2)`: pad on the left with `'0'` to length at least 2. -/
def zfill2 (s : List Char) : List Char :=
  if s.length < 2 then List.replicate (2 - s.length) '0' ++ s else s

/-- `"".join(hex(num)[2:].upper().zfill(2) for num in data[6:10])`:
the intersection id rendered from payload bytes 6..10. -/
def intersection_id_of (data : List Nat) : String :=
  String.mk (((pySlice data 6 10).map
    (fun num => zfill2 ((pyHexStr num).map Char.toUpper))).flatten)

/-- `struct.unpack('>i', bytes(bs))[0]`: the big-endian signed 32-bit
integer held in `bs`; `struct.error` unless `bs` has exactly 4 bytes. -/
def unpackBEi32 (bs : List Nat) : Except PyError Int :=
  match bs with
  | [b0, b1, b2, b3] =>
    let u := b0 * 0x1000000 + b1 * 0x10000 + b2 * 0x100 + b3
    .ok (if u < 0x80000000 then (u : Int) else (u : Int) - 0x100000000)
  | _ => .error .structError

/-- `bytes(bs).decode(errors='ignore')`: UTF-8 decoding where each
maximal invalid subpart is dropped (CPython's `ignore` error handler)
instead of raising.  Lead bytes `0x80`–`0xC1` and `0xF5`–`0xFF` are
invalid; overlong encodings and surrogates are excluded by the
range restrictions on the first continuation byte. -/
def utf8DecodeIgnoreAux : Nat → List Nat → List Char
  | 0, _ => []
  | _ + 1, [] => []
  | fuel + 1, b :: rest =>
    if b < 0x80 then
      Char.ofNat b :: utf8DecodeIgnoreAux fuel rest
    else if b < 0xC2 then
      utf8DecodeIgnoreAux fuel rest
    else if b < 0xE0 then
      match rest with
      | [] => []
      | c1 :: rest1 =>
        if 0x80 ≤ c1 ∧ c1 < 0xC0 then
          Char.ofNat ((b - 0xC0) * 0x40 + (c1 - 0x80)) :: utf8DecodeIgnoreAux fuel rest1
        else
          utf8DecodeIgnoreAux fuel rest
    else if b < 0xF0 then
      match rest with
      | [] => []
      | c1 :: rest1 =>
        if (if b = 0xE0 then 0xA0 else 0x80) ≤ c1 ∧ c1 < (if b = 0xED then 0xA0 else 0xC0) then
          match rest1 with
          | [] => []
          | c2 :: rest2 =>
            if 0x80 ≤ c2 ∧ c2 < 0xC0 then
              Char.ofNat ((b - 0xE0) * 0x1000 + (c1 - 0x80) * 0x40 + (c2 - 0x80)) ::
                utf8DecodeIgnoreAux fuel rest2
            else
              utf8DecodeIgnoreAux fuel rest1
        else
          utf8DecodeIgnoreAux fuel rest
    else if b < 0xF5 then
      match rest with
      | [] => []
      | c1 :: rest1 =>
        if (if b = 0xF0 then 0x90 else 0x80) ≤ c1 ∧ c1 < (if b = 0xF4 then 0x90 else 0xC0) then
          match rest1 with
          | [] => []
          | c2 :: rest2 =>
            if 0x80 ≤ c2 ∧ c2 < 0xC0 then
              match rest2 with
              | [] => []
              | c3 :: rest3 =>
                if 0x80 ≤ c3 ∧ c3 < 0xC0 then
                  Char.ofNat ((b - 0xF0) * 0x40000 + (c1 - 0x80) * 0x1000 +
                      (c2 - 0x80) * 0x40 + (c3 - 0x80)) :: utf8DecodeIgnoreAux fuel rest3
                else
                  utf8DecodeIgnoreAux fuel rest2
            else
              utf8DecodeIgnoreAux fuel rest1
        else
          utf8DecodeIgnoreAux fuel rest
    else
      utf8DecodeIgnoreAux fuel rest

/-- `bytes(bs).decode(errors='ignore')`: each decoding step consumes at
least one byte, so the list length is enough fuel for `utf8DecodeIgnoreAux`
(structural recursion on fuel keeps the definition kernel-computable). -/
def utf8DecodeIgnore (bs : List Nat) : List Char :=
  utf8DecodeIgnoreAux bs.length bs

/-- Python `s.strip(c)` for a single-character strip set: removes
occurrences of `c` from BOTH ends of the string. -/
def pyStrip (c : Char) (s : List Char) : List Char :=
  ((s.dropWhile (· = c)).reverse.dropWhile (· = c)).reverse

/-- Modelled from the spec: the spec's §4.1 wording says only *trailing*
NUL bytes are stripped from the identifier.  This definition follows those
words (strip from the right end only), to be compared with the source's
`pyStrip` which strips both ends. -/
def specStripTrailing (c : Char) (s : List Char) : List Char :=
  (s.reverse.dropWhile (· = c)).reverse

/-- The signal-state labels that `process_pics` stores (the Python code
uses the strings `'NoSignal'`, `'Red'`, `'BlinkGreen'`, `'Green'`,
`'None'`, `'Unknown'`; the spec's enum names them `NoSignal, Red,
BlinkingGreen, Green, None, Unknown`). -/
inductive SignalState where
  | NoSignal
  | Red
  | BlinkGreen
  | Green
  | None
  | Unknown
deriving DecidableEq, Repr

/-- One decoded pedestrian-signal phase. -/
structure SignalPhase where
  remaining_time : Int
  signal_state : SignalState
deriving DecidableEq, Repr

/-- The per-byte phase decoding from the `msg_type == 2` branch of
`process_pics`:
`remaining_time = int((signal_byte >> 4) & 0x0F)`,
`signal_state = int(signal_byte & 0x0F)`, then
`-1 if remaining_time >= 8 else remaining_time + 1` and the
`{0:'NoSignal',1:'Red',2:'BlinkGreen',3:'Green',4:'None'}.get(_, 'Unknown')`
lookup. -/
def decodePhase (signal_byte : Nat) : SignalPhase :=
  let remaining_time := (signal_byte >>> 4) &&& 0x0F
  let signal_state := signal_byte &&& 0x0F
  { remaining_time := if remaining_time ≥ 8 then -1 else (remaining_time : Int) + 1
    signal_state :=
      match signal_state with
      | 0 => .NoSignal
      | 1 => .Red
      | 2 => .BlinkGreen
      | 3 => .Green
      | 4 => .None
      | _ => .Unknown }

/-- The message-type-specific part of the `pics_info` dict: the key set
that `process_pics` adds beyond `message_type`/`message_id`/
`intersection_id` depends on `msg_type` (`identifier`, or
`latitude`+`longitude`, or `pedestrian_signals`, or nothing). -/
inductive PicsBody where
  | identifier (identifier : String)
  | location (latitude longitude : ℚ)
  | signals (pedestrian_signals : List SignalPhase)
  | none
deriving DecidableEq, Repr

/-- The `pics_info` dict built by `process_pics`. -/
structure PicsInfo where
  message_type : Nat
  message_id : Nat
  intersection_id : String
  body : PicsBody
deriving DecidableEq, Repr

/-- Shallow embedding of `process_pics(data)` (lines 9–36 of
`ble-pics-viewer.py`).  `data[2]` / `data[3]` raise `IndexError` on a list
shorter than 4; slicing never raises; `struct.unpack('>i', ...)` raises
`struct.error` when its slice holds fewer than 4 bytes; the `msg_type == 2`
loop appends one phase per `i in range(6)` with `10 + i < len(data)`
(`data.get? (10+i)` is `some` exactly in that case). -/
def process_pics (data : List Nat) : Except PyError PicsInfo := do
  let msg_type ← pyGet data 2
  let message_id ← pyGet data 3
  let inter := intersection_id_of data
  if msg_type = 0 then
    let identifier := String.mk (pyStrip (Char.ofNat 0) (utf8DecodeIgnore (pySlice data 10 24)))
    return { message_type := msg_type, message_id, intersection_id := inter,
             body := .identifier identifier }
  else if msg_type = 1 then
    let latitude ← unpackBEi32 (pySlice data 10 14)
    let longitude ← unpackBEi32 (pySlice data 14 18)
    return { message_type := msg_type, message_id, intersection_id := inter,
             body := .location ((latitude : ℚ) / 1000000) ((longitude : ℚ) / 1000000) }
  else if msg_type = 2 then
    let pedestrian_signals := (List.range 6).filterMap
      (fun i => (data.get? (10 + i)).map decodePhase)
    return { message_type := msg_type, message_id, intersection_id := inter,
             body := .signals pedestrian_signals }
  else
    return { message_type := msg_type, message_id, intersection_id := inter,
             body := .none }

/-- A decode attempt either fails the vendor filter, raises a Python
error inside `process_pics`, or yields a record. -/
inductive DecodeError where
  | vendorMismatch
  | pyError (e : PyError)
deriving DecidableEq, Repr

/-- The decode path of `detection_callback` for one manufacturer-data
entry: entries with `manufacturer_id != 0x01CE` are skipped (`continue`,
i.e. no record is produced — the spec's `VendorMismatch`) before any
parsing; otherwise `process_pics` runs on the payload bytes. -/
def decode (vendorId : Nat) (data : List Nat) : Except DecodeError PicsInfo :=
  if vendorId ≠ 0x01CE then .error .vendorMismatch
  else
    match process_pics data with
    | .ok info => .ok info
    | .error e => .error (.pyError e)

/-- Payloads delivered by the BLE stack are byte strings: every element
is `< 256`. -/
def IsBytes (data : List Nat) : Prop := ∀ b ∈ data, b < 256

instance : DecidablePred IsBytes := fun data =>
  inferInstanceAs (Decidable (∀ b ∈ data, b < 256))

/-- One `log_history` entry:
`{"time": latest_timestamp, "s1": signals[0], "s2": signals[1]}`. -/
structure HistoryEntry where
  time : Int
  s1 : SignalPhase
  s2 : SignalPhase
deriving DecidableEq, Repr

/-- The module-level globals of `ble-pics-viewer.py` that
`detection_callback` mutates: `latest_info`, `latest_raw`,
`latest_timestamp`, `last_signal_info` and `log_history`
(a `deque(maxlen=5)`). -/
structure TrackerState where
  latest_info : Option PicsInfo
  latest_raw : Option (List Nat)
  latest_timestamp : Option Int
  last_signal_info : Option PicsInfo
  log_history : List HistoryEntry
deriving DecidableEq, Repr

/-- The initial global state (all `None`, empty history). -/
def initialState : TrackerState :=
  { latest_info := Option.none, latest_raw := Option.none,
    latest_timestamp := Option.none, last_signal_info := Option.none,
    log_history := [] }

/-- `deque(maxlen=5).append(e)`: append on the right, discarding from the
left whatever exceeds capacity 5 (for a deque already holding at most 5
this discards at most the single oldest entry). -/
def dequeAppend5 (h : List HistoryEntry) (e : HistoryEntry) : List HistoryEntry :=
  let l := h ++ [e]
  l.drop (l.length - 5)

/-- `pics_info['pedestrian_signals']`: dict lookup of the phase list,
`KeyError` when the record carries no such key. -/
def getSignals : PicsBody → Except PyError (List SignalPhase)
  | .signals ps => .ok ps
  | _ => .error .keyError

/-- `ps[i]` on the Python phase list: `IndexError` when out of range. -/
def pyGetPhase (ps : List SignalPhase) (i : Nat) : Except PyError SignalPhase :=
  match ps.get? i with
  | some p => .ok p
  | Option.none => .error .indexError

/-- The state-update portion of `detection_callback` (lines 76–85) for one
successfully decoded record: unconditionally set `latest_info`,
`latest_raw`, `latest_timestamp`; then, only when
`pics_info.get('message_type') == 2`, set `last_signal_info` and append
`{"time": t, "s1": signals[0], "s2": signals[1]}` to `log_history`.
Python mutates the globals in place, so when `signals[0]` or `signals[1]`
raises `IndexError` the assignments already made stick: the result is the
state as mutated so far, paired with the raised error (if any). -/
def ingest (s : TrackerState) (info : PicsInfo) (raw : List Nat) (t : Int) :
    TrackerState × Option PyError :=
  let s0 := { s with latest_info := some info, latest_raw := some raw,
                     latest_timestamp := some t }
  if info.message_type = 2 then
    let s1 := { s0 with last_signal_info := some info }
    match getSignals info.body with
    | .error e => (s1, some e)
    | .ok ps =>
      match pyGetPhase ps 0 with
      | .error e => (s1, some e)
      | .ok p0 =>
        match pyGetPhase ps 1 with
        | .error e => (s1, some e)
        | .ok p1 =>
          ({ s1 with log_history := dequeAppend5 s1.log_history
                       { time := t, s1 := p0, s2 := p1 } }, Option.none)
  else (s0, Option.none)

/-- Ingest a sequence of decoded records (each with its raw payload and
timestamp), keeping the state that each `detection_callback` invocation
leaves behind. -/
def ingestAll (s : TrackerState) (xs : List (PicsInfo × List Nat × Int)) : TrackerState :=
  xs.foldl (fun s x => (ingest s x.1 x.2.1 x.2.2).1) s

/-- The hold-last-value display of `detection_callback` (lines 93–102):
when `last_signal_info` is set (a dict is truthy), show
`pedestrian_signals[0]` and `pedestrian_signals[1]` of the retained
record; otherwise show the "waiting" placeholder (modelled as `none`). -/
def currentDisplay (s : TrackerState) : Except PyError (Option (SignalPhase × SignalPhase)) :=
  match s.last_signal_info with
  | Option.none => .ok Option.none
  | some info => do
    let ps ← getSignals info.body
    let p0 ← pyGetPhase ps 0
    let p1 ← pyGetPhase ps 1
    return some (p0, p1)

/-- The history read of `detection_callback` (lines 116–119):
`[entry for entry in list(log_history) if now - entry["time"] <= window]`,
where the code instantiates `window` with `timedelta(seconds=30)` (the
spec's `recentHistory(window, now)` query).  A pure read: the stored
deque is not modified. -/
def recentHistory (window now : Int) (h : List HistoryEntry) : List HistoryEntry :=
  h.filter (fun entry => decide (now - entry.time ≤ window))

/-- The big-endian signed 32-bit value of four bytes (what
`struct.unpack('>i', ...)` computes when given exactly four bytes, and
what the spec's "big-endian signed 32-bit integer" denotes). -/
def beSigned32 (b0 b1 b2 b3 : Nat) : Int :=
  let u := b0 * 0x1000000 + b1 * 0x10000 + b2 * 0x100 + b3
  if u < 0x80000000 then (u : Int) else (u : Int) - 0x100000000

/-! ### Concrete fixtures used in witness theorems -/

/-- A decoded type-2 record carrying no phases (as produced by a 10-byte
type-2 payload). -/
def emptySignalRecord : PicsInfo :=
  { message_type := 2, message_id := 0, intersection_id := "", body := .signals [] }

/-- A sample decoded phase. -/
def phaseA : SignalPhase := { remaining_time := 3, signal_state := .Green }

/-- A sample decoded phase. -/
def phaseB : SignalPhase := { remaining_time := -1, signal_state := .Red }

/-- A decoded type-2 record with two phases. -/
def twoPhaseRecord : PicsInfo :=
  { message_type := 2, message_id := 1, intersection_id := "",
    body := .signals [phaseA, phaseB] }

/-- A decoded type-0 record (non-signal). -/
def idRecord : PicsInfo :=
  { message_type := 0, message_id := 0, intersection_id := "", body := .identifier ("") }

/-- A 12-byte type-2 payload holding two signal bytes. -/
def c2payload : List Nat := [0, 0, 2, 5, 0, 0, 0, 0, 0, 0, 149, 35]

/-- An 18-byte type-1 payload. -/
def c4payload : List Nat := [0, 0, 1, 7, 0, 0, 1, 2, 3, 4, 0, 15, 66, 64, 119, 53, 148, 0]

/-- A 14-byte type-0 payload whose identifier field holds a byte, a NUL
and padding. -/
def c8payload : List Nat := [0, 0, 0, 0, 0, 0, 0, 0, 0, 0, 66, 0, 0, 0]

/-- An 18-byte type-1 payload whose coordinate fields decode far outside
geographic ranges. -/
def c10payload : List Nat := [0, 0, 1, 0, 0, 0, 0, 0, 0, 0, 64, 0, 0, 0, 119, 53, 148, 0]

/-! ### Supporting lemmas -/

theorem and_fifteen (b : Nat) : b &&& 15 = b % 16 := by
  have h := Nat.and_pow_two_sub_one_eq_mod b 4
  norm_num at h
  exact h

theorem shiftRight_four (b : Nat) : b >>> 4 = b / 16 := by
  have h := Nat.shiftRight_eq_div_pow b 4
  norm_num at h
  exact h

theorem filterMap_range_get (xs : List Nat) (g : Nat → SignalPhase) (k : Nat) :
    ∀ n, (List.range n).filterMap (fun i => (xs.get? (k + i)).map g) =
      ((xs.drop k).take n).map g := by
  intro n
  induction n with
  | zero => simp
  | succ n ih =>
    rw [List.range_succ, List.filterMap_append, ih, List.take_succ, List.map_append]
    congr 1
    cases h : (xs.drop k)[n]? with
    | none =>
      simp only [List.getElem?_drop] at h
      simp [List.filterMap_cons, List.get?_eq_getElem?, h]
    | some b =>
      simp only [List.getElem?_drop] at h
      simp [List.filterMap_cons, List.get?_eq_getElem?, h]

theorem unpackBEi32_err (bs : List Nat) (h : bs.length ≠ 4) :
    unpackBEi32 bs = .error .structError := by
  rcases bs with _ | ⟨b0, _ | ⟨b1, _ | ⟨b2, _ | ⟨b3, _ | ⟨b4, rest⟩⟩⟩⟩⟩ <;> simp_all [unpackBEi32]

theorem unpackBEi32_four (b0 b1 b2 b3 : Nat) :
    unpackBEi32 [b0, b1, b2, b3] = .ok (beSigned32 b0 b1 b2 b3) := rfl

theorem take4 (l : List Nat) (h : 4 ≤ l.length) :
    ∃ b0 b1 b2 b3, l.take 4 = [b0, b1, b2, b3] ∧ l.get? 0 = some b0 ∧
      l.get? 1 = some b1 ∧ l.get? 2 = some b2 ∧ l.get? 3 = some b3 := by
  rcases l with _ | ⟨x0, _ | ⟨x1, _ | ⟨x2, _ | ⟨x3, r⟩⟩⟩⟩ <;> simp_all

theorem pySlice_four (data : List Nat) (a : Nat) (h : a + 4 ≤ data.length) :
    ∃ b0 b1 b2 b3, data.get? a = some b0 ∧ data.get? (a + 1) = some b1 ∧
      data.get? (a + 2) = some b2 ∧ data.get? (a + 3) = some b3 ∧
      pySlice data a (a + 4) = [b0, b1, b2, b3] := by
  have hlen : 4 ≤ (data.drop a).length := by simp; omega
  obtain ⟨b0, b1, b2, b3, htake, h0, h1, h2, h3⟩ := take4 (data.drop a) hlen
  have hd : ∀ i, (data.drop a).get? i = data.get? (a + i) := by
    intro i
    simp [List.get?_eq_getElem?, List.getElem?_drop]
  refine ⟨b0, b1, b2, b3, ?_, ?_, ?_, ?_, ?_⟩
  · simpa using (hd 0).symm.trans h0
  · simpa using (hd 1).symm.trans h1
  · simpa using (hd 2).symm.trans h2
  · simpa using (hd 3).symm.trans h3
  · simpa [pySlice, Nat.add_sub_cancel_left] using htake

/-! ### Evaluation lemmas for `process_pics`, one per message type -/

theorem process_pics_type0 (data : List Nat) (m : Nat)
    (h2 : data.get? 2 = some 0) (h3 : data.get? 3 = some m) :
    process_pics data = .ok ⟨0, m, intersection_id_of data,
      .identifier (String.mk (pyStrip (Char.ofNat 0) (utf8DecodeIgnore (pySlice data 10 24))))⟩ := by
  have h2' : data[2]? = some 0 := by simpa [List.get?_eq_getElem?] using h2
  have h3' : data[3]? = some m := by simpa [List.get?_eq_getElem?] using h3
  simp [process_pics, pyGet, h2', h3', Bind.bind, Except.bind, Pure.pure, Except.pure]

theorem process_pics_type1 (data : List Nat) (m : Nat) (lat lon : Int)
    (h2 : data.get? 2 = some 1) (h3 : data.get? 3 = some m)
    (hlat : unpackBEi32 (pySlice data 10 14) = .ok lat)
    (hlon : unpackBEi32 (pySlice data 14 18) = .ok lon) :
    process_pics data = .ok ⟨1, m, intersection_id_of data,
      .location ((lat : ℚ) / 1000000) ((lon : ℚ) / 1000000)⟩ := by
  have h2' : data[2]? = some 1 := by simpa [List.get?_eq_getElem?] using h2
  have h3' : data[3]? = some m := by simpa [List.get?_eq_getElem?] using h3
  simp [process_pics, pyGet, h2', h3', hlat, hlon, Bind.bind, Except.bind, Pure.pure,
    Except.pure]

theorem process_pics_type1_err (data : List Nat) (m : Nat)
    (h2 : data.get? 2 = some 1) (h3 : data.get? 3 = some m)
    (hlen : data.length < 18) :
    process_pics data = .error .structError := by
  have h2' : data[2]? = some 1 := by simpa [List.get?_eq_getElem?] using h2
  have h3' : data[3]? = some m := by simpa [List.get?_eq_getElem?] using h3
  by_cases hl : data.length < 14
  · have hs : (pySlice data 10 14).length ≠ 4 := by
      simp [pySlice]
      omega
    simp [process_pics, pyGet, h2', h3', unpackBEi32_err _ hs, Bind.bind, Except.bind,
      Pure.pure, Except.pure]
  · have hs : (pySlice data 14 18).length ≠ 4 := by
      simp [pySlice]
      omega
    have h4 : (pySlice data 10 14).length = 4 := by
      simp [pySlice]
      omega
    obtain ⟨lat, hlat⟩ : ∃ v, unpackBEi32 (pySlice data 10 14) = .ok v := by
      rcases hps : pySlice data 10 14 with _ | ⟨b0, _ | ⟨b1, _ | ⟨b2, _ | ⟨b3, _ | ⟨b4, r⟩⟩⟩⟩⟩ <;>
        simp_all [unpackBEi32]
    simp [process_pics, pyGet, h2', h3', hlat, unpackBEi32_err _ hs, Bind.bind, Except.bind,
      Pure.pure, Except.pure]

theorem process_pics_type2 (data : List Nat) (m : Nat)
    (h2 : data.get? 2 = some 2) (h3 : data.get? 3 = some m) :
    process_pics data = .ok ⟨2, m, intersection_id_of data,
      .signals (((data.drop 10).take 6).map decodePhase)⟩ := by
  have h2' : data[2]? = some 2 := by simpa [List.get?_eq_getElem?] using h2
  have h3' : data[3]? = some m := by simpa [List.get?_eq_getElem?] using h3
  have hfm := filterMap_range_get data decodePhase 10 6
  simp only [List.get?_eq_getElem?] at hfm
  simp [process_pics, pyGet, h2', h3', Bind.bind, Except.bind, Pure.pure, Except.pure, hfm]

/-! ### Supporting lemmas for the tracker -/

theorem dequeAppend5_length (h : List HistoryEntry) (e : HistoryEntry) :
    (dequeAppend5 h e).length = min (h.length + 1) 5 := by
  simp [dequeAppend5]
  omega

theorem ingest_log_history (s : TrackerState) (info : PicsInfo) (raw : List Nat) (t : Int) :
    (ingest s info raw t).1.log_history = s.log_history ∨
    ∃ e, (ingest s info raw t).1.log_history = dequeAppend5 s.log_history e := by
  by_cases hm : info.message_type = 2
  · cases hg : getSignals info.body with
    | error e => simp [ingest, hm, hg]
    | ok ps =>
      cases h0 : pyGetPhase ps 0 with
      | error e => simp [ingest, hm, hg, h0]
      | ok p0 =>
        cases h1 : pyGetPhase ps 1 with
        | error e => simp [ingest, hm, hg, h0, h1]
        | ok p1 =>
          right
          exact ⟨{ time := t, s1 := p0, s2 := p1 }, by simp [ingest, hm, hg, h0, h1]⟩
  · left
    simp [ingest, hm]

theorem ingestAll_nonsignal (ms : List (PicsInfo × List Nat × Int)) :
    ∀ s : TrackerState, (∀ x ∈ ms, x.1.message_type ≠ 2) →
      (ingestAll s ms).last_signal_info = s.last_signal_info ∧
      (ingestAll s ms).log_history = s.log_history := by
  induction ms with
  | nil => exact fun s _ => ⟨rfl, rfl⟩
  | cons x ms ih =>
    intro s hms
    have hx : x.1.message_type ≠ 2 := hms x (by simp)
    have hstep : (ingest s x.1 x.2.1 x.2.2).1.last_signal_info = s.last_signal_info ∧
        (ingest s x.1 x.2.1 x.2.2).1.log_history = s.log_history := by
      simp [ingest, hx]
    obtain ⟨h1, h2⟩ := ih (ingest s x.1 x.2.1 x.2.2).1 (fun y hy => hms y (by simp [hy]))
    exact ⟨h1.trans hstep.1, h2.trans hstep.2⟩

theorem beSigned32_bounds (b0 b1 b2 b3 : Nat) (h0 : b0 < 256) (h1 : b1 < 256)
    (h2 : b2 < 256) (h3 : b3 < 256) :
    -2147483648 ≤ beSigned32 b0 b1 b2 b3 ∧ beSigned32 b0 b1 b2 b3 ≤ 2147483647 := by
  simp only [beSigned32]
  constructor <;> split <;> omega

theorem scaledQ_bounds (v : Int) (hlo : -2147483648 ≤ v) (hhi : v ≤ 2147483647) :
    -(2147483648 / 1000000 : ℚ) ≤ (v : ℚ) / 1000000 ∧
      (v : ℚ) / 1000000 ≤ 2147483647 / 1000000 := by
  constructor
  · have h1 : ((-2147483648 : Int) : ℚ) ≤ (v : ℚ) := by exact_mod_cast hlo
    calc -(2147483648 / 1000000 : ℚ) = ((-2147483648 : Int) : ℚ) / 1000000 := by norm_num
      _ ≤ (v : ℚ) / 1000000 := (div_le_div_iff_of_pos_right (by norm_num)).mpr h1
  · have h2 : (v : ℚ) ≤ ((2147483647 : Int) : ℚ) := by exact_mod_cast hhi
    calc (v : ℚ) / 1000000 ≤ ((2147483647 : Int) : ℚ) / 1000000 :=
        (div_le_div_iff_of_pos_right (by norm_num)).mpr h2
      _ = 2147483647 / 1000000 := by norm_num

/-! ### Claim theorems -/

/-- C1: the claim states that a payload shorter than 10 bytes yields the
`Truncated` error and no record.  The code has no length check: a 9-byte
all-zero payload of message type 0 decodes successfully to a record with
an empty identifier and a 3-byte (6-hex-digit) intersection id, and a
2-byte payload raises `IndexError` at `data[2]` instead of returning an
error value.  The claim's second half — a 10-byte type-0 payload succeeds
with an empty identifier — does hold, and is proved here in general
form. -/
theorem C1_truncation_behavior :
    process_pics (List.replicate 9 0) =
      .ok { message_type := 0, message_id := 0, intersection_id := "000000",
            body := .identifier ("") } ∧
    process_pics [0, 0] = .error .indexError ∧
    (∀ data : List Nat, data.length = 10 → data.get? 2 = some 0 →
      ∃ m, process_pics data = .ok { message_type := 0, message_id := m,
                                     intersection_id := intersection_id_of data,
                                     body := .identifier ("") }) := by
  refine ⟨by decide, by decide, ?_⟩
  intro data hlen h2
  obtain ⟨m, h3⟩ : ∃ v, data.get? 3 = some v := ⟨_, List.get?_eq_get (by omega)⟩
  refine ⟨m, ?_⟩
  have hsl : pySlice data 10 24 = [] := by
    simp [pySlice, List.drop_eq_nil_of_le (show data.length ≤ 10 by omega)]
  rw [process_pics_type0 data m h2 h3, hsl]
  rfl

theorem C1_truncation_behavior_witness :
    (List.replicate 10 0 : List Nat).length = 10 ∧
    (List.replicate 10 0 : List Nat).get? 2 = some 0 ∧
    (∃ m, process_pics (List.replicate 10 0) =
      .ok { message_type := 0, message_id := m,
            intersection_id := intersection_id_of (List.replicate 10 0),
            body := .identifier ("") }) :=
  ⟨by decide, by decide, C1_truncation_behavior.2.2 (List.replicate 10 0) (by decide) (by decide)⟩

/-- C2: for a payload of length ≥ 10 with message type 2, the decoded
record's `pedestrian_signals` has exactly `min 6 (length - 10)` phases;
phase `i` is decoded from byte `payload[10+i]`: `remaining_time` is `-1`
when the high nibble is ≥ 8, else high nibble + 1, and the low nibble
0,1,2,3,4 maps to NoSignal, Red, BlinkGreen (the spec's BlinkingGreen),
Green, None, anything else to Unknown.  Phases beyond the payload are not
emitted. -/
theorem C2_signal_phase_decoding (data : List Nat) (hb : IsBytes data)
    (hlen : 10 ≤ data.length) (h2 : data.get? 2 = some 2) :
    ∃ info ps, process_pics data = .ok info ∧ info.body = .signals ps ∧
      ps.length = min 6 (data.length - 10) ∧
      ∀ (i : Nat) (hi : i < ps.length), ∃ b, data.get? (10 + i) = some b ∧
        (ps.get ⟨i, hi⟩).remaining_time =
          (if 8 ≤ b / 16 then (-1 : Int) else ((b / 16 : Nat) : Int) + 1) ∧
        (ps.get ⟨i, hi⟩).signal_state =
          (if b % 16 = 0 then SignalState.NoSignal
           else if b % 16 = 1 then SignalState.Red
           else if b % 16 = 2 then SignalState.BlinkGreen
           else if b % 16 = 3 then SignalState.Green
           else if b % 16 = 4 then SignalState.None
           else SignalState.Unknown) := by
  obtain ⟨m, h3⟩ : ∃ v, data.get? 3 = some v := ⟨_, List.get?_eq_get (by omega)⟩
  refine ⟨_, _, process_pics_type2 data m h2 h3, rfl, ?_, ?_⟩
  · simp [List.length_take, List.length_drop]
  · intro i hi
    have hi' : i < (((data.drop 10).take 6).map decodePhase).length := hi
    have hi6 : i < 6 := by
      simp [List.length_take, List.length_drop] at hi'
      omega
    have hidx : 10 + i < data.length := by
      simp [List.length_take, List.length_drop] at hi'
      omega
    have hb256 : data.get ⟨10 + i, hidx⟩ < 256 :=
      hb _ (List.get_mem data _ _)
    have hget : ((((data.drop 10).take 6).map decodePhase).get ⟨i, hi⟩) =
        decodePhase (data.get ⟨10 + i, hidx⟩) := by
      simp [List.get_eq_getElem, List.getElem_map, List.getElem_take, List.getElem_drop]
    refine ⟨data.get ⟨10 + i, hidx⟩, List.get?_eq_get hidx, ?_, ?_⟩
    · rw [hget]
      simp only [decodePhase, shiftRight_four, and_fifteen]
      rw [Nat.mod_eq_of_lt (show data.get ⟨10 + i, hidx⟩ / 16 < 16 by omega)]
    · rw [hget]
      simp only [decodePhase, and_fifteen]
      have hsb : data.get ⟨10 + i, hidx⟩ % 16 < 16 := Nat.mod_lt _ (by norm_num)
      generalize hgen : data.get ⟨10 + i, hidx⟩ % 16 = sb at hsb ⊢
      interval_cases sb <;> rfl

theorem C2_signal_phase_decoding_witness :
    IsBytes c2payload ∧ 10 ≤ c2payload.length ∧ c2payload.get? 2 = some 2 ∧
    (∃ info ps, process_pics c2payload = .ok info ∧ info.body = .signals ps ∧
      ps.length = min 6 (c2payload.length - 10) ∧
      ∀ (i : Nat) (hi : i < ps.length), ∃ b, c2payload.get? (10 + i) = some b ∧
        (ps.get ⟨i, hi⟩).remaining_time =
          (if 8 ≤ b / 16 then (-1 : Int) else ((b / 16 : Nat) : Int) + 1) ∧
        (ps.get ⟨i, hi⟩).signal_state =
          (if b % 16 = 0 then SignalState.NoSignal
           else if b % 16 = 1 then SignalState.Red
           else if b % 16 = 2 then SignalState.BlinkGreen
           else if b % 16 = 3 then SignalState.Green
           else if b % 16 = 4 then SignalState.None
           else SignalState.Unknown)) :=
  ⟨by decide, by decide, by decide,
    C2_signal_phase_decoding c2payload (by decide) (by decide) (by decide)⟩

/-- C3: the claim states the tracker accepts a `SignalRecord` with fewer
than 2 phases without failing, setting `lastSignalRecord` and leaving
`history` unchanged.  The code does set `last_signal_info` and never
reaches the history append — but it then raises `IndexError` at
`pics_info['pedestrian_signals'][0]` (or `[1]`), so "does not fail" is
wrong on the code.  The last conjunct shows such records are reachable:
a 10-byte type-2 payload decodes to a record with zero phases. -/
theorem C3_short_signal_record_ingest (s : TrackerState) (info : PicsInfo)
    (raw : List Nat) (t : Int) (ps : List SignalPhase)
    (hmt : info.message_type = 2) (hb : info.body = .signals ps)
    (hlen : ps.length < 2) :
    (ingest s info raw t).1.last_signal_info = some info ∧
    (ingest s info raw t).1.log_history = s.log_history ∧
    (ingest s info raw t).2 = some .indexError ∧
    process_pics [0, 0, 2, 0, 0, 0, 0, 0, 0, 0] =
      .ok { message_type := 2, message_id := 0, intersection_id := "00000000",
            body := .signals [] } := by
  rcases ps with _ | ⟨p, _ | ⟨q, r⟩⟩
  · refine ⟨?_, ?_, ?_, by decide⟩ <;> simp [ingest, hmt, hb, getSignals, pyGetPhase]
  · refine ⟨?_, ?_, ?_, by decide⟩ <;> simp [ingest, hmt, hb, getSignals, pyGetPhase]
  · exact absurd hlen (by simp)

theorem C3_short_signal_record_ingest_witness :
    emptySignalRecord.message_type = 2 ∧
    emptySignalRecord.body = .signals [] ∧
    ([] : List SignalPhase).length < 2 ∧
    ((ingest initialState emptySignalRecord [] 0).1.last_signal_info =
        some emptySignalRecord ∧
      (ingest initialState emptySignalRecord [] 0).1.log_history =
        initialState.log_history ∧
      (ingest initialState emptySignalRecord [] 0).2 = some .indexError ∧
      process_pics [0, 0, 2, 0, 0, 0, 0, 0, 0, 0] =
        .ok { message_type := 2, message_id := 0, intersection_id := "00000000",
              body := .signals [] }) :=
  ⟨rfl, rfl, by decide,
    C3_short_signal_record_ingest initialState emptySignalRecord [] 0 [] rfl rfl (by decide)⟩

/-- C4: the claim states that a type-1 payload of length 10–17 makes
decode *return* the `Truncated` error value without throwing.  The code
instead raises `struct.error` from `struct.unpack('>i', ...)` on the
short slice (modelled as the `structError` exception outcome); no
`Truncated` value exists in the code.  The claim's second half holds: at
length ≥ 18 the record carries the big-endian signed 32-bit fields at
[10:14] and [14:18], each divided by 1,000,000. -/
theorem C4_location_truncation (data : List Nat) (h2 : data.get? 2 = some 1) :
    process_pics [0, 0, 1, 0, 0, 0, 0, 0, 0, 0, 0, 0] = .error .structError ∧
    (10 ≤ data.length → data.length < 18 → process_pics data = .error .structError) ∧
    (18 ≤ data.length →
      ∃ m b0 b1 b2 b3 c0 c1 c2 c3, data.get? 3 = some m ∧
        data.get? 10 = some b0 ∧ data.get? 11 = some b1 ∧
        data.get? 12 = some b2 ∧ data.get? 13 = some b3 ∧
        data.get? 14 = some c0 ∧ data.get? 15 = some c1 ∧
        data.get? 16 = some c2 ∧ data.get? 17 = some c3 ∧
        process_pics data = .ok { message_type := 1, message_id := m,
                                  intersection_id := intersection_id_of data,
                                  body := .location ((beSigned32 b0 b1 b2 b3 : ℚ) / 1000000)
                                      ((beSigned32 c0 c1 c2 c3 : ℚ) / 1000000) }) := by
  refine ⟨by decide, ?_, ?_⟩
  · intro hl10 hl18
    obtain ⟨m, h3⟩ : ∃ v, data.get? 3 = some v := ⟨_, List.get?_eq_get (by omega)⟩
    exact process_pics_type1_err data m h2 h3 hl18
  · intro hl
    obtain ⟨m, h3⟩ : ∃ v, data.get? 3 = some v := ⟨_, List.get?_eq_get (by omega)⟩
    obtain ⟨b0, b1, b2, b3, hb0, hb1, hb2, hb3, hsl1⟩ := pySlice_four data 10 (by omega)
    obtain ⟨c0, c1, c2, c3, hc0, hc1, hc2, hc3, hsl2⟩ := pySlice_four data 14 (by omega)
    refine ⟨m, b0, b1, b2, b3, c0, c1, c2, c3, h3, hb0, hb1, hb2, hb3, hc0, hc1, hc2, hc3, ?_⟩
    have hlat : unpackBEi32 (pySlice data 10 14) = .ok (beSigned32 b0 b1 b2 b3) := by
      rw [show (14 : Nat) = 10 + 4 from rfl, hsl1, unpackBEi32_four]
    have hlon : unpackBEi32 (pySlice data 14 18) = .ok (beSigned32 c0 c1 c2 c3) := by
      rw [show (18 : Nat) = 14 + 4 from rfl, hsl2, unpackBEi32_four]
    exact process_pics_type1 data m _ _ h2 h3 hlat hlon

theorem C4_location_truncation_witness :
    c4payload.get? 2 = some 1 ∧ 18 ≤ c4payload.length ∧
    (∃ m b0 b1 b2 b3 c0 c1 c2 c3, c4payload.get? 3 = some m ∧
      c4payload.get? 10 = some b0 ∧ c4payload.get? 11 = some b1 ∧
      c4payload.get? 12 = some b2 ∧ c4payload.get? 13 = some b3 ∧
      c4payload.get? 14 = some c0 ∧ c4payload.get? 15 = some c1 ∧
      c4payload.get? 16 = some c2 ∧ c4payload.get? 17 = some c3 ∧
      process_pics c4payload = .ok { message_type := 1, message_id := m,
                                     intersection_id := intersection_id_of c4payload,
                                     body := .location ((beSigned32 b0 b1 b2 b3 : ℚ) / 1000000)
                                         ((beSigned32 c0 c1 c2 c3 : ℚ) / 1000000) }) :=
  ⟨by decide, by decide, (C4_location_truncation c4payload (by decide)).2.2 (by decide)⟩

/-- C5: hold-last-value.  Ingesting a non-signal record leaves
`last_signal_info` and `log_history` unchanged (and raises nothing); after
a signal record with ≥ 2 phases followed by any sequence of non-signal
records, the display still shows that record's first two phases; and the
display is empty only when no signal record has been retained at all. -/
theorem C5_hold_last_value :
    (∀ (s : TrackerState) (info : PicsInfo) (raw : List Nat) (t : Int),
      info.message_type ≠ 2 →
      (ingest s info raw t).1.last_signal_info = s.last_signal_info ∧
      (ingest s info raw t).1.log_history = s.log_history ∧
      (ingest s info raw t).2 = Option.none) ∧
    (∀ (s : TrackerState) (sig : PicsInfo) (raw : List Nat) (t : Int)
      (p0 p1 : SignalPhase) (r : List SignalPhase) (ms : List (PicsInfo × List Nat × Int)),
      sig.message_type = 2 → sig.body = .signals (p0 :: p1 :: r) →
      (∀ x ∈ ms, x.1.message_type ≠ 2) →
      currentDisplay (ingestAll (ingest s sig raw t).1 ms) = .ok (some (p0, p1))) ∧
    (∀ s : TrackerState, currentDisplay s = .ok Option.none →
      s.last_signal_info = Option.none) := by
  refine ⟨?_, ?_, ?_⟩
  · intro s info raw t h
    simp [ingest, h]
  · intro s sig raw t p0 p1 r ms hmt hb hms
    obtain ⟨h1, _⟩ := ingestAll_nonsignal ms (ingest s sig raw t).1 hms
    have hlast : (ingest s sig raw t).1.last_signal_info = some sig := by
      simp [ingest, hmt, hb, getSignals, pyGetPhase]
    rw [currentDisplay, h1, hlast]
    simp [hb, getSignals, pyGetPhase, Bind.bind, Except.bind, Pure.pure, Except.pure]
  · intro s h
    cases hl : s.last_signal_info with
    | none => rfl
    | some info =>
      exfalso
      rcases hg : getSignals info.body with e | ps
      · simp [currentDisplay, hl, hg, Bind.bind, Except.bind] at h
      · rcases h0 : ps[0]? with _ | p0
        · simp [currentDisplay, hl, hg, pyGetPhase, h0, Bind.bind, Except.bind] at h
        · rcases h1 : ps[1]? with _ | p1 <;>
            simp [currentDisplay, hl, hg, pyGetPhase, h0, h1, Bind.bind, Except.bind,
              Pure.pure, Except.pure] at h

theorem C5_hold_last_value_witness :
    twoPhaseRecord.message_type = 2 ∧
    twoPhaseRecord.body = .signals (phaseA :: phaseB :: []) ∧
    (∀ x ∈ [(idRecord, ([] : List Nat), (1 : Int))], x.1.message_type ≠ 2) ∧
    currentDisplay (ingestAll (ingest initialState twoPhaseRecord [] 0).1
      [(idRecord, [], 1)]) = .ok (some (phaseA, phaseB)) :=
  ⟨rfl, rfl, by decide,
    C5_hold_last_value.2.1 initialState twoPhaseRecord [] 0 phaseA phaseB []
      [(idRecord, [], 1)] rfl rfl (by decide)⟩

/-- C6: the history never exceeds 5 entries (every ingest preserves the
capacity bound), and ingesting 6 consecutive two-phase signal records
from the initial state leaves exactly the last 5 entries in insertion
order — the oldest is evicted, none reordered. -/
theorem C6_history_capacity_fifo :
    (∀ (s : TrackerState) (info : PicsInfo) (raw : List Nat) (t : Int),
      s.log_history.length ≤ 5 →
      (ingest s info raw t).1.log_history.length ≤ 5) ∧
    (∀ (mid : Fin 6 → Nat) (iid : Fin 6 → String) (p0 p1 : Fin 6 → SignalPhase)
      (r : Fin 6 → List SignalPhase) (raws : Fin 6 → List Nat) (ts : Fin 6 → Int),
      (ingestAll initialState
        [(⟨2, mid 0, iid 0, .signals (p0 0 :: p1 0 :: r 0)⟩, raws 0, ts 0),
         (⟨2, mid 1, iid 1, .signals (p0 1 :: p1 1 :: r 1)⟩, raws 1, ts 1),
         (⟨2, mid 2, iid 2, .signals (p0 2 :: p1 2 :: r 2)⟩, raws 2, ts 2),
         (⟨2, mid 3, iid 3, .signals (p0 3 :: p1 3 :: r 3)⟩, raws 3, ts 3),
         (⟨2, mid 4, iid 4, .signals (p0 4 :: p1 4 :: r 4)⟩, raws 4, ts 4),
         (⟨2, mid 5, iid 5, .signals (p0 5 :: p1 5 :: r 5)⟩, raws 5, ts 5)]).log_history =
      [⟨ts 1, p0 1, p1 1⟩, ⟨ts 2, p0 2, p1 2⟩, ⟨ts 3, p0 3, p1 3⟩,
       ⟨ts 4, p0 4, p1 4⟩, ⟨ts 5, p0 5, p1 5⟩]) := by
  constructor
  · intro s info raw t h
    rcases ingest_log_history s info raw t with heq | ⟨e, heq⟩
    · rw [heq]
      exact h
    · rw [heq, dequeAppend5_length]
      omega
  · intro mid iid p0 p1 r raws ts
    simp [ingestAll, ingest, getSignals, pyGetPhase, dequeAppend5, initialState]

theorem C6_history_capacity_fifo_witness :
    initialState.log_history.length ≤ 5 ∧
    (ingest initialState twoPhaseRecord [] 0).1.log_history.length ≤ 5 :=
  ⟨by decide, C6_history_capacity_fifo.1 initialState twoPhaseRecord [] 0 (by decide)⟩

/-- C7: `recentHistory window now` returns, in original insertion order
(it is a sublist of the stored history), exactly the entries with
`now - observedAt ≤ window` (non-strict at the boundary).  The stored
history itself is untouched: the read is the pure list comprehension of
lines 118–119, which builds a new list. -/
theorem C7_recent_history_window (window now : Int) (h : List HistoryEntry) :
    (recentHistory window now h).Sublist h ∧
    ∀ e : HistoryEntry, e ∈ recentHistory window now h ↔ e ∈ h ∧ now - e.time ≤ window := by
  constructor
  · exact List.filter_sublist h
  · intro e
    simp [recentHistory, List.mem_filter]

/-- C8 (amended): for a payload of length ≥ 10 with message type 0, the
identifier is the lossy (errors dropped, never failing) text decoding of
`payload[10:24]` with NUL bytes stripped from BOTH ends — Python's
`.strip('\x00')` strips leading NULs as well, not only trailing ones as
the claim states. -/
theorem C8_identifier_strip (data : List Nat)
    (hlen : 10 ≤ data.length) (h2 : data.get? 2 = some 0) :
    ∃ m, data.get? 3 = some m ∧
      process_pics data = .ok { message_type := 0, message_id := m,
                                intersection_id := intersection_id_of data,
                                body := .identifier (String.mk (pyStrip (Char.ofNat 0)
                                    (utf8DecodeIgnore (pySlice data 10 24)))) } := by
  obtain ⟨m, h3⟩ : ∃ v, data.get? 3 = some v := ⟨_, List.get?_eq_get (by omega)⟩
  exact ⟨m, h3, process_pics_type0 data m h2 h3⟩

theorem C8_identifier_strip_witness :
    10 ≤ c8payload.length ∧ c8payload.get? 2 = some 0 ∧
    (∃ m, c8payload.get? 3 = some m ∧
      process_pics c8payload = .ok { message_type := 0, message_id := m,
                                     intersection_id := intersection_id_of c8payload,
                                     body := .identifier (String.mk (pyStrip (Char.ofNat 0)
                                         (utf8DecodeIgnore (pySlice c8payload 10 24)))) }) :=
  ⟨by decide, by decide, C8_identifier_strip c8payload (by decide) (by decide)⟩

/-- C8 counterexample: on the 12-byte type-0 payload whose identifier
field holds the bytes `00 41`, the code decodes the identifier to `"A"`
(leading NUL stripped too), while the claim's trailing-only strip of the
lossy decoding yields `"\x00A"` — so the decoded identifier does NOT
equal the trailing-stripped text the claim describes. -/
theorem C8_identifier_strip_counterexample :
    process_pics [0, 0, 0, 0, 0, 0, 0, 0, 0, 0, 0, 65] =
      .ok { message_type := 0, message_id := 0, intersection_id := "00000000",
            body := .identifier ("A") } ∧
    String.mk (specStripTrailing (Char.ofNat 0)
      (utf8DecodeIgnore (pySlice [0, 0, 0, 0, 0, 0, 0, 0, 0, 0, 0, 65] 10 24))) = "\x00A" ∧
    ("A" : String) ≠ "\x00A" :=
  ⟨by decide, by decide, by decide⟩

/-- C9: the vendor filter of `detection_callback` skips every
manufacturer-data entry whose id is not 0x01CE before any parsing (no
record is produced, the spec's `VendorMismatch`); for id 0x01CE the
decode result is exactly the `process_pics` result on the payload. -/
theorem C9_vendor_filter (vendorId : Nat) (data : List Nat) :
    (vendorId ≠ 0x01CE → decode vendorId data = .error .vendorMismatch) ∧
    (vendorId = 0x01CE → ∀ info : PicsInfo,
      decode vendorId data = .ok info ↔ process_pics data = .ok info) := by
  constructor
  · intro h
    simp [decode, h]
  · intro h info
    subst h
    cases hp : process_pics data <;> simp [decode, hp]

theorem C9_vendor_filter_witness :
    ((4660 : Nat) ≠ 0x01CE ∧ decode 4660 [] = .error .vendorMismatch) ∧
    ((462 : Nat) = 0x01CE ∧
      (decode 462 [0, 0, 3, 0, 0, 0, 0, 0, 0, 0] =
          .ok { message_type := 3, message_id := 0, intersection_id := "00000000",
                body := .none } ↔
        process_pics [0, 0, 3, 0, 0, 0, 0, 0, 0, 0] =
          .ok { message_type := 3, message_id := 0, intersection_id := "00000000",
                body := .none })) :=
  ⟨⟨by decide, (C9_vendor_filter 4660 []).1 (by decide)⟩,
    ⟨rfl, (C9_vendor_filter 462 [0, 0, 3, 0, 0, 0, 0, 0, 0, 0]).2 rfl _⟩⟩

/-- C10 (implicit): every decoded coordinate lies in the signed-32-bit
range scaled by 10⁻⁶, i.e. within [-2147.483648, 2147.483647]; and the
decoder applies no geographic validation, so coordinates outside ±90 /
±180 degrees can be returned (witnessed by a payload decoding to
latitude ≈ 1073.74 and longitude 2000). -/
theorem C10_coordinate_range :
    (∀ data : List Nat, IsBytes data → data.get? 2 = some 1 → 18 ≤ data.length →
      ∃ info, ∃ lat lon : ℚ, process_pics data = .ok info ∧
        info.body = .location lat lon ∧
        -(2147483648 / 1000000 : ℚ) ≤ lat ∧ lat ≤ 2147483647 / 1000000 ∧
        -(2147483648 / 1000000 : ℚ) ≤ lon ∧ lon ≤ 2147483647 / 1000000) ∧
    (∃ data : List Nat, ∃ info, ∃ lat lon : ℚ, IsBytes data ∧
      process_pics data = .ok info ∧ info.body = .location lat lon ∧
      90 < lat ∧ 180 < lon) := by
  constructor
  · intro data hb h2 hl
    obtain ⟨m, h3⟩ : ∃ v, data.get? 3 = some v := ⟨_, List.get?_eq_get (by omega)⟩
    obtain ⟨b0, b1, b2, b3, hb0, hb1, hb2, hb3, hsl1⟩ := pySlice_four data 10 (by omega)
    obtain ⟨c0, c1, c2, c3, hc0, hc1, hc2, hc3, hsl2⟩ := pySlice_four data 14 (by omega)
    have hlat : unpackBEi32 (pySlice data 10 14) = .ok (beSigned32 b0 b1 b2 b3) := by
      rw [show (14 : Nat) = 10 + 4 from rfl, hsl1, unpackBEi32_four]
    have hlon : unpackBEi32 (pySlice data 14 18) = .ok (beSigned32 c0 c1 c2 c3) := by
      rw [show (18 : Nat) = 14 + 4 from rfl, hsl2, unpackBEi32_four]
    obtain ⟨hblo, hbhi⟩ := beSigned32_bounds b0 b1 b2 b3
      (hb _ (List.get?_mem hb0)) (hb _ (List.get?_mem hb1))
      (hb _ (List.get?_mem hb2)) (hb _ (List.get?_mem hb3))
    obtain ⟨hclo, hchi⟩ := beSigned32_bounds c0 c1 c2 c3
      (hb _ (List.get?_mem hc0)) (hb _ (List.get?_mem hc1))
      (hb _ (List.get?_mem hc2)) (hb _ (List.get?_mem hc3))
    obtain ⟨hq1, hq2⟩ := scaledQ_bounds _ hblo hbhi
    obtain ⟨hq3, hq4⟩ := scaledQ_bounds _ hclo hchi
    exact ⟨_, _, _, process_pics_type1 data m _ _ h2 h3 hlat hlon, rfl, hq1, hq2, hq3, hq4⟩
  · refine ⟨c10payload, _,
      ((1073741824 : Int) : ℚ) / 1000000, ((2000000000 : Int) : ℚ) / 1000000,
      by decide,
      process_pics_type1 c10payload 0 1073741824 2000000000 (by decide) (by decide)
        (by decide) (by decide),
      rfl, by norm_num, by norm_num⟩

theorem C10_coordinate_range_witness :
    IsBytes c10payload ∧ c10payload.get? 2 = some 1 ∧ 18 ≤ c10payload.length ∧
    (∃ info, ∃ lat lon : ℚ, process_pics c10payload = .ok info ∧
      info.body = .location lat lon ∧
      -(2147483648 / 1000000 : ℚ) ≤ lat ∧ lat ≤ 2147483647 / 1000000 ∧
      -(2147483648 / 1000000 : ℚ) ≤ lon ∧ lon ≤ 2147483647 / 1000000) :=
  ⟨by decide, by decide, by decide,
    C10_coordinate_range.1 c10payload (by decide) (by decide) (by decide)⟩

end PICS
